import Mathlib

/-!
Verification of the hypothesis-test evaluation procedure of the
`basic_statistics` repository (notebook `Hypothesis_Testing_II.ipynb`).

The notebook computes, for a body-temperature sample:
  * `err = s / sqrt(n)` and the test statistic `t_score = (m - mu0) / err`;
  * a two-sided t-test p-value `2 * stats.t.sf(|t_score|, n-1)`;
  * a z-test p-value `2 * stats.norm.pdf(|z_score|)` (the probability
    *density*, although the accompanying comment says "Gaussian CDF");
  * a right-tailed p-value `stats.t.sf(t_score, n-1)`; the final markdown
    cell states that a left-tailed test would use `stats.t.sf(-t_score, n-1)`.

The surrounding `evaluate` function (input validation, the accept/reject
decision, the error type) does not exist in the notebook; those parts are
modelled from the specification and marked as such below.  The external
distribution functions (Student-t survival function for general degrees of
freedom, normal survival function) are collaborators supplied by a math
library, so `evaluate` is parametrised over them; the normal density and
the degrees-of-freedom-2 Student-t survival function have closed forms and
are defined outright.
-/

namespace BasicStatistics

open Classical

/-- Sample summary statistics: size, mean, standard deviation. -/
structure SampleSummary where
  n : ℕ
  mean : ℝ
  stddev : ℝ

/-- Tail mode of the test. -/
inductive Tail where
  | TwoSided
  | LeftTailed
  | RightTailed
deriving DecidableEq

/-- Reference distribution used to convert the statistic to a probability. -/
inductive Distribution where
  | StudentT
  | Normal
deriving DecidableEq

/-- Test specification: hypothesized mean, significance level, tail mode,
reference distribution. -/
structure TestSpec where
  hypothesizedMean : ℝ
  alpha : ℝ
  tail : Tail
  distribution : Distribution

/-- Result of a hypothesis test: statistic, p-value, reject decision. -/
structure TestResult where
  statistic : ℝ
  pValue : ℝ
  reject : Bool

/-- Modelled from the spec: the error taxonomy of the evaluator (the notebook
performs no input validation). -/
inductive TestError where
  | InvalidInput
deriving DecidableEq

/-- Density of the standard normal distribution,
`exp (-x^2/2) / sqrt (2*pi)`; this is what `stats.norm.pdf` computes and is
what the notebook's z-test cell feeds into its p-value. -/
noncomputable def normalPdf (x : ℝ) : ℝ :=
  Real.exp (-(x ^ 2) / 2) / Real.sqrt (2 * Real.pi)

/-- Closed form of the survival function of the Student-t distribution with
2 degrees of freedom: `P(T2 >= x) = 1/2 - x / (2 * sqrt (x^2 + 2))`.  Used to
instantiate the external `stats.t.sf` collaborator at `df = 2`. -/
noncomputable def tSf2 (x : ℝ) : ℝ :=
  1 / 2 - x / (2 * Real.sqrt (x ^ 2 + 2))

/-- Modelled from the spec: validity of the evaluator inputs (`n > 1`,
`stddev >= 0`, `alpha` in the open interval `(0,1)`); the notebook has no
validation code. -/
def validInput (sample : SampleSummary) (spec : TestSpec) : Prop :=
  1 < sample.n ∧ 0 ≤ sample.stddev ∧ 0 < spec.alpha ∧ spec.alpha < 1

/-- Standard error `err = s / sqrt(n)` (notebook: `err = s/np.sqrt(n)`). -/
noncomputable def stdError (sample : SampleSummary) : ℝ :=
  sample.stddev / Real.sqrt sample.n

/-- Test statistic `(m - mu0) / err` (notebook: `t_score = (m - 98.6) / err`,
`z_score = (m - 98.6) / err`); it does not depend on the chosen reference
distribution. -/
noncomputable def statistic (sample : SampleSummary) (spec : TestSpec) : ℝ :=
  (sample.mean - spec.hypothesizedMean) / stdError sample

/-- The p-value, by distribution and tail mode, exactly as the notebook
computes it: `2 * stats.t.sf(|t|, n-1)` for the two-sided t-test,
`stats.t.sf(t, n-1)` for the right tail, `stats.t.sf(-t, n-1)` for the left
tail, and `2 * stats.norm.pdf(|z|)` for the two-sided z-test (the density,
as in the source).  The normal one-sided branches do not occur in the
notebook and are modelled from the spec as survival-function based.
`tsf df x` stands for the external `stats.t.sf(x, df)` and `nsf x` for the
external `stats.norm.sf(x)`. -/
noncomputable def pValue (tsf : ℕ → ℝ → ℝ) (nsf : ℝ → ℝ)
    (sample : SampleSummary) (spec : TestSpec) : ℝ :=
  match spec.distribution, spec.tail with
  | Distribution.StudentT, Tail.TwoSided =>
      2 * tsf (sample.n - 1) |statistic sample spec|
  | Distribution.StudentT, Tail.RightTailed =>
      tsf (sample.n - 1) (statistic sample spec)
  | Distribution.StudentT, Tail.LeftTailed =>
      tsf (sample.n - 1) (-(statistic sample spec))
  | Distribution.Normal, Tail.TwoSided =>
      2 * normalPdf |statistic sample spec|
  | Distribution.Normal, Tail.RightTailed =>
      nsf (statistic sample spec)
  | Distribution.Normal, Tail.LeftTailed =>
      nsf (-(statistic sample spec))

/-- Modelled from the spec: the test result assembled from the notebook's
computations, with the uniform decision rule `reject = (pValue <= alpha)`
(the notebook never computes a reject boolean). -/
noncomputable def evaluateCore (tsf : ℕ → ℝ → ℝ) (nsf : ℝ → ℝ)
    (sample : SampleSummary) (spec : TestSpec) : TestResult :=
  ⟨statistic sample spec, pValue tsf nsf sample spec,
    if pValue tsf nsf sample spec ≤ spec.alpha then true else false⟩

/-- Modelled from the spec: `evaluate(sample, spec) -> TestResult`, failing
with `InvalidInput` on malformed parameters and otherwise returning the
result assembled from the notebook's formulas. -/
noncomputable def evaluate (tsf : ℕ → ℝ → ℝ) (nsf : ℝ → ℝ)
    (sample : SampleSummary) (spec : TestSpec) : Except TestError TestResult :=
  if validInput sample spec then
    Except.ok (evaluateCore tsf nsf sample spec)
  else
    Except.error TestError.InvalidInput

/-- The notebook's sample: 65 male body temperatures. -/
noncomputable def bodySample : SampleSummary :=
  ⟨65, 98.10461538461539, 0.6987557623265904⟩

lemma evaluate_eq_ok (tsf : ℕ → ℝ → ℝ) (nsf : ℝ → ℝ)
    (sample : SampleSummary) (spec : TestSpec) (h : validInput sample spec) :
    evaluate tsf nsf sample spec = Except.ok (evaluateCore tsf nsf sample spec) := by
  unfold evaluate
  exact if_pos h

lemma evaluate_eq_error (tsf : ℕ → ℝ → ℝ) (nsf : ℝ → ℝ)
    (sample : SampleSummary) (spec : TestSpec) (h : ¬ validInput sample spec) :
    evaluate tsf nsf sample spec = Except.error TestError.InvalidInput := by
  unfold evaluate
  exact if_neg h

lemma evaluateCore_statistic (tsf : ℕ → ℝ → ℝ) (nsf : ℝ → ℝ)
    (sample : SampleSummary) (spec : TestSpec) :
    (evaluateCore tsf nsf sample spec).statistic = statistic sample spec := rfl

lemma evaluateCore_pValue (tsf : ℕ → ℝ → ℝ) (nsf : ℝ → ℝ)
    (sample : SampleSummary) (spec : TestSpec) :
    (evaluateCore tsf nsf sample spec).pValue = pValue tsf nsf sample spec := rfl

lemma evaluateCore_reject_iff (tsf : ℕ → ℝ → ℝ) (nsf : ℝ → ℝ)
    (sample : SampleSummary) (spec : TestSpec) :
    (evaluateCore tsf nsf sample spec).reject = true ↔
      pValue tsf nsf sample spec ≤ spec.alpha := by
  show (if pValue tsf nsf sample spec ≤ spec.alpha then true else false) = true ↔ _
  by_cases h : pValue tsf nsf sample spec ≤ spec.alpha
  · simp [h]
  · simp [h]

lemma sqrt_le_of_sq_le (a b : ℝ) (hb : 0 ≤ b) (h : a ≤ b ^ 2) :
    Real.sqrt a ≤ b := by
  calc Real.sqrt a ≤ Real.sqrt (b ^ 2) := Real.sqrt_le_sqrt h
  _ = b := Real.sqrt_sq hb

lemma le_sqrt_of_sq_le (a b : ℝ) (hb : 0 ≤ b) (h : b ^ 2 ≤ a) :
    b ≤ Real.sqrt a := by
  calc b = Real.sqrt (b ^ 2) := (Real.sqrt_sq hb).symm
  _ ≤ Real.sqrt a := Real.sqrt_le_sqrt h

lemma lt_sqrt_of_sq_lt (a b : ℝ) (hb : 0 ≤ b) (h : b ^ 2 < a) :
    b < Real.sqrt a := by
  calc b = Real.sqrt (b ^ 2) := (Real.sqrt_sq hb).symm
  _ < Real.sqrt a := Real.sqrt_lt_sqrt (by positivity) h

lemma sqrt_two_pi_pos : 0 < Real.sqrt (2 * Real.pi) :=
  Real.sqrt_pos.mpr (by positivity)

lemma sqrt_two_pi_gt : (2.5 : ℝ) < Real.sqrt (2 * Real.pi) :=
  lt_sqrt_of_sq_lt _ _ (by norm_num) (by nlinarith [Real.pi_gt_d6])

lemma sqrt_two_pi_le : Real.sqrt (2 * Real.pi) ≤ 2.5067 :=
  sqrt_le_of_sq_le _ _ (by norm_num) (by nlinarith [Real.pi_lt_d6])

lemma normalPdf_nonneg (x : ℝ) : 0 ≤ normalPdf x :=
  div_nonneg (Real.exp_pos _).le (Real.sqrt_nonneg _)

lemma normalPdf_le_normalPdf_zero (x : ℝ) : normalPdf x ≤ normalPdf 0 := by
  unfold normalPdf
  apply div_le_div_of_nonneg_right ?_ sqrt_two_pi_pos.le
  exact Real.exp_le_exp.mpr (by nlinarith [sq_nonneg x])

lemma normalPdf_zero : normalPdf 0 = 1 / Real.sqrt (2 * Real.pi) := by
  unfold normalPdf
  norm_num

lemma two_normalPdf_zero_lt : 2 * normalPdf 0 < 4 / 5 := by
  rw [normalPdf_zero]
  rw [mul_one_div]
  rw [div_lt_iff₀ sqrt_two_pi_pos]
  nlinarith [sqrt_two_pi_gt]

lemma statistic_eq (sample : SampleSummary) (spec : TestSpec) :
    statistic sample spec =
      (sample.mean - spec.hypothesizedMean) /
        (sample.stddev / Real.sqrt (sample.n : ℝ)) := rfl

/-- Claim C2: for every sample with `n > 1` and `stddev > 0` (and a valid alpha),
`evaluate` computes the statistic `(mean - hypothesizedMean) / (stddev / sqrt n)`,
and the statistic is identical for the StudentT and Normal paths. -/
theorem claim2_statistic_shared (tsf : ℕ → ℝ → ℝ) (nsf : ℝ → ℝ)
    (sample : SampleSummary) (mu0 alpha : ℝ) (tail : Tail)
    (hn : 1 < sample.n) (hs : 0 < sample.stddev)
    (ha0 : 0 < alpha) (ha1 : alpha < 1) :
    ∃ rT rN : TestResult,
      evaluate tsf nsf sample ⟨mu0, alpha, tail, Distribution.StudentT⟩ = Except.ok rT ∧
      evaluate tsf nsf sample ⟨mu0, alpha, tail, Distribution.Normal⟩ = Except.ok rN ∧
      rT.statistic = (sample.mean - mu0) / (sample.stddev / Real.sqrt (sample.n : ℝ)) ∧
      rN.statistic = rT.statistic := by
  exact ⟨_, _, evaluate_eq_ok _ _ _ _ ⟨hn, hs.le, ha0, ha1⟩,
    evaluate_eq_ok _ _ _ _ ⟨hn, hs.le, ha0, ha1⟩, rfl, rfl⟩

/-- Witness for C2 at a concrete input. -/
theorem claim2_statistic_shared_witness :
    ∃ rT rN : TestResult,
      evaluate (fun _ _ => 0) (fun _ => 0) ⟨2, 1, 1⟩
        ⟨0, 1 / 2, Tail.TwoSided, Distribution.StudentT⟩ = Except.ok rT ∧
      evaluate (fun _ _ => 0) (fun _ => 0) ⟨2, 1, 1⟩
        ⟨0, 1 / 2, Tail.TwoSided, Distribution.Normal⟩ = Except.ok rN ∧
      rT.statistic = ((1 : ℝ) - 0) / ((1 : ℝ) / Real.sqrt ((2 : ℕ) : ℝ)) ∧
      rN.statistic = rT.statistic :=
  claim2_statistic_shared (fun _ _ => 0) (fun _ => 0) ⟨2, 1, 1⟩ 0 (1 / 2)
    Tail.TwoSided (by norm_num) (by norm_num) (by norm_num) (by norm_num)

/-- Claim C3: for every valid input and every tail mode, `evaluate` returns
`reject = true` iff `pValue <= alpha`; in particular `pValue = alpha`
rejects. -/
theorem claim3_decision_rule (tsf : ℕ → ℝ → ℝ) (nsf : ℝ → ℝ)
    (sample : SampleSummary) (spec : TestSpec) (h : validInput sample spec) :
    ∃ r : TestResult, evaluate tsf nsf sample spec = Except.ok r ∧
      (r.reject = true ↔ r.pValue ≤ spec.alpha) ∧
      (r.pValue = spec.alpha → r.reject = true) := by
  refine ⟨_, evaluate_eq_ok _ _ _ _ h, ?_, ?_⟩
  · exact evaluateCore_reject_iff tsf nsf sample spec
  · intro he
    exact (evaluateCore_reject_iff tsf nsf sample spec).mpr (le_of_eq he)

/-- Witness for C3 at a concrete input. -/
theorem claim3_decision_rule_witness :
    ∃ r : TestResult,
      evaluate (fun _ _ => 0) (fun _ => 0) ⟨10, 5, 1⟩
        ⟨5, 1 / 20, Tail.RightTailed, Distribution.StudentT⟩ = Except.ok r ∧
      (r.reject = true ↔ r.pValue ≤ (⟨5, 1 / 20, Tail.RightTailed,
        Distribution.StudentT⟩ : TestSpec).alpha) ∧
      (r.pValue = (⟨5, 1 / 20, Tail.RightTailed,
        Distribution.StudentT⟩ : TestSpec).alpha → r.reject = true) :=
  claim3_decision_rule (fun _ _ => 0) (fun _ => 0) ⟨10, 5, 1⟩
    ⟨5, 1 / 20, Tail.RightTailed, Distribution.StudentT⟩
    ⟨by norm_num, by norm_num, by norm_num, by norm_num⟩

/-- Claim C8: `evaluate` fails with `InvalidInput`, producing no result, whenever
`n <= 1`, or `stddev < 0`, or alpha lies outside the open interval (0,1). -/
theorem claim8_invalid_input (tsf : ℕ → ℝ → ℝ) (nsf : ℝ → ℝ)
    (sample : SampleSummary) (spec : TestSpec)
    (h : sample.n ≤ 1 ∨ sample.stddev < 0 ∨ spec.alpha ≤ 0 ∨ 1 ≤ spec.alpha) :
    evaluate tsf nsf sample spec = Except.error TestError.InvalidInput := by
  apply evaluate_eq_error
  intro hv
  obtain ⟨h1, h2, h3, h4⟩ := hv
  rcases h with h | h | h | h
  · exact absurd h1 (not_lt.mpr h)
  · linarith
  · linarith
  · linarith

/-- Witness for C8: both `n = 1` and `alpha = 1.5` fail with `InvalidInput`. -/
theorem claim8_invalid_input_witness :
    evaluate (fun _ _ => 0) (fun _ => 0) ⟨1, 98.6, 0.7⟩
      ⟨98.6, 0.05, Tail.TwoSided, Distribution.StudentT⟩ =
        Except.error TestError.InvalidInput ∧
    evaluate (fun _ _ => 0) (fun _ => 0) ⟨65, 98.6, 0.7⟩
      ⟨98.6, 1.5, Tail.TwoSided, Distribution.StudentT⟩ =
        Except.error TestError.InvalidInput :=
  ⟨claim8_invalid_input _ _ _ _ (Or.inl (by norm_num)),
   claim8_invalid_input _ _ _ _ (Or.inr (Or.inr (Or.inr (by norm_num))))⟩

/-- Claim C7: for every valid input, any tail mode and distribution, the p-value
returned by `evaluate` lies in `[0, 1]`, given that the external survival
functions land in `[0, 1]` and are at most `1/2` on nonnegative arguments
(properties of the underlying CDFs, which are external collaborators). -/
theorem claim7_pvalue_unit_interval (tsf : ℕ → ℝ → ℝ) (nsf : ℝ → ℝ)
    (sample : SampleSummary) (spec : TestSpec) (h : validInput sample spec)
    (htsf01 : ∀ df x, 0 ≤ tsf df x ∧ tsf df x ≤ 1)
    (htsfhalf : ∀ df x, 0 ≤ x → tsf df x ≤ 1 / 2)
    (hnsf01 : ∀ x, 0 ≤ nsf x ∧ nsf x ≤ 1) :
    ∃ r : TestResult, evaluate tsf nsf sample spec = Except.ok r ∧
      0 ≤ r.pValue ∧ r.pValue ≤ 1 := by
  refine ⟨_, evaluate_eq_ok _ _ _ _ h, ?_⟩
  rw [evaluateCore_pValue]
  obtain ⟨mu0, alpha, tail, dist⟩ := spec
  cases dist <;> cases tail <;> simp only [pValue]
  · constructor
    · have h1 := (htsf01 (sample.n - 1)
        |statistic sample ⟨mu0, alpha, Tail.TwoSided, Distribution.StudentT⟩|).1
      linarith
    · have h2 := htsfhalf (sample.n - 1)
        |statistic sample ⟨mu0, alpha, Tail.TwoSided, Distribution.StudentT⟩|
        (abs_nonneg _)
      linarith
  · exact htsf01 (sample.n - 1) _
  · exact htsf01 (sample.n - 1) _
  · constructor
    · have h1 := normalPdf_nonneg
        |statistic sample ⟨mu0, alpha, Tail.TwoSided, Distribution.Normal⟩|
      linarith
    · have h2 := normalPdf_le_normalPdf_zero
        |statistic sample ⟨mu0, alpha, Tail.TwoSided, Distribution.Normal⟩|
      have h3 := two_normalPdf_zero_lt
      linarith
  · exact hnsf01 _
  · exact hnsf01 _

/-- Witness for C7 at a concrete input, with constant-zero collaborators. -/
theorem claim7_pvalue_unit_interval_witness :
    ∃ r : TestResult,
      evaluate (fun _ _ => 0) (fun _ => 0) ⟨10, 5, 1⟩
        ⟨5, 1 / 20, Tail.TwoSided, Distribution.StudentT⟩ = Except.ok r ∧
      0 ≤ r.pValue ∧ r.pValue ≤ 1 :=
  claim7_pvalue_unit_interval (fun _ _ => 0) (fun _ => 0) ⟨10, 5, 1⟩
    ⟨5, 1 / 20, Tail.TwoSided, Distribution.StudentT⟩
    ⟨by norm_num, by norm_num, by norm_num, by norm_num⟩
    (fun _ _ => ⟨le_refl 0, by norm_num⟩)
    (fun _ _ _ => by norm_num)
    (fun _ => ⟨le_refl 0, by norm_num⟩)

/-- Claim C9: with `stddev = 0` and `mean = hypothesizedMean` (and otherwise valid
inputs), `evaluate` does not fail; the statistic is exactly 0, the two-sided
StudentT p-value is exactly 1 (the external t survival function takes value
`1/2` at 0), and `reject = false`. -/
theorem claim9_degenerate_zero_stddev (tsf : ℕ → ℝ → ℝ) (nsf : ℝ → ℝ)
    (sample : SampleSummary) (mu0 alpha : ℝ)
    (hn : 1 < sample.n) (ha0 : 0 < alpha) (ha1 : alpha < 1)
    (hs : sample.stddev = 0) (hm : sample.mean = mu0)
    (htsf : tsf (sample.n - 1) 0 = 1 / 2) :
    ∃ r : TestResult,
      evaluate tsf nsf sample ⟨mu0, alpha, Tail.TwoSided, Distribution.StudentT⟩ =
        Except.ok r ∧
      r.statistic = 0 ∧ r.pValue = 1 ∧ r.reject = false := by
  have hstat : statistic sample ⟨mu0, alpha, Tail.TwoSided, Distribution.StudentT⟩ = 0 := by
    rw [statistic_eq, hm]
    simp
  have hp : pValue tsf nsf sample ⟨mu0, alpha, Tail.TwoSided, Distribution.StudentT⟩ = 1 := by
    show 2 * tsf (sample.n - 1)
      |statistic sample ⟨mu0, alpha, Tail.TwoSided, Distribution.StudentT⟩| = 1
    rw [hstat, abs_zero, htsf]
    norm_num
  refine ⟨_, evaluate_eq_ok _ _ _ _ ⟨hn, le_of_eq hs.symm, ha0, ha1⟩, ?_, ?_, ?_⟩
  · exact (evaluateCore_statistic _ _ _ _).trans hstat
  · exact (evaluateCore_pValue _ _ _ _).trans hp
  · rw [← Bool.not_eq_true, evaluateCore_reject_iff]
    intro hcon
    rw [hp] at hcon
    have : (1 : ℝ) ≤ alpha := hcon
    linarith

/-- Witness for C9 at the spec's concrete degenerate scenario
`n=10, mean=5, stddev=0, hypothesizedMean=5, alpha=0.05`. -/
theorem claim9_degenerate_zero_stddev_witness :
    ∃ r : TestResult,
      evaluate (fun _ _ => 1 / 2) (fun _ => 0) ⟨10, 5, 0⟩
        ⟨5, 1 / 20, Tail.TwoSided, Distribution.StudentT⟩ = Except.ok r ∧
      r.statistic = 0 ∧ r.pValue = 1 ∧ r.reject = false :=
  claim9_degenerate_zero_stddev (fun _ _ => 1 / 2) (fun _ => 0) ⟨10, 5, 0⟩ 5 (1 / 20)
    (by norm_num) (by norm_num) (by norm_num) rfl rfl rfl

/-- Claim C10: the Normal-branch two-sided p-value, as the notebook computes it
from the density, is at most `2/sqrt(2*pi)` and always below `4/5 = 0.8`;
when the statistic is 0 (mean equals the hypothesized mean) it equals
`2/sqrt(2*pi)` (about 0.7979), not 1. -/
theorem claim10_normal_branch_capped (tsf : ℕ → ℝ → ℝ) (nsf : ℝ → ℝ)
    (sample : SampleSummary) (mu0 alpha : ℝ) :
    (evaluateCore tsf nsf sample
        ⟨mu0, alpha, Tail.TwoSided, Distribution.Normal⟩).pValue ≤
      2 / Real.sqrt (2 * Real.pi) ∧
    (evaluateCore tsf nsf sample
        ⟨mu0, alpha, Tail.TwoSided, Distribution.Normal⟩).pValue < 4 / 5 ∧
    (sample.mean = mu0 →
      (evaluateCore tsf nsf sample
          ⟨mu0, alpha, Tail.TwoSided, Distribution.Normal⟩).pValue =
        2 / Real.sqrt (2 * Real.pi) ∧
      (evaluateCore tsf nsf sample
          ⟨mu0, alpha, Tail.TwoSided, Distribution.Normal⟩).pValue ≠ 1) := by
  have hform : (evaluateCore tsf nsf sample
      ⟨mu0, alpha, Tail.TwoSided, Distribution.Normal⟩).pValue =
      2 * normalPdf |statistic sample ⟨mu0, alpha, Tail.TwoSided, Distribution.Normal⟩| :=
    rfl
  have hle := normalPdf_le_normalPdf_zero
    |statistic sample ⟨mu0, alpha, Tail.TwoSided, Distribution.Normal⟩|
  have hzero : 2 * normalPdf 0 = 2 / Real.sqrt (2 * Real.pi) := by
    rw [normalPdf_zero, mul_one_div]
  have hcap : (evaluateCore tsf nsf sample
      ⟨mu0, alpha, Tail.TwoSided, Distribution.Normal⟩).pValue ≤
      2 / Real.sqrt (2 * Real.pi) := by
    rw [hform, ← hzero]
    linarith
  have hlt : (evaluateCore tsf nsf sample
      ⟨mu0, alpha, Tail.TwoSided, Distribution.Normal⟩).pValue < 4 / 5 := by
    rw [hform]
    have := two_normalPdf_zero_lt
    linarith
  refine ⟨hcap, hlt, fun hm => ?_⟩
  have hstat : statistic sample ⟨mu0, alpha, Tail.TwoSided, Distribution.Normal⟩ = 0 := by
    rw [statistic_eq, hm]
    simp
  have heq : (evaluateCore tsf nsf sample
      ⟨mu0, alpha, Tail.TwoSided, Distribution.Normal⟩).pValue =
      2 / Real.sqrt (2 * Real.pi) := by
    rw [hform, hstat, abs_zero, hzero]
  exact ⟨heq, by rw [heq, ← hzero]; have := two_normalPdf_zero_lt; linarith⟩

/-- Witness for C10 at a concrete input with mean equal to the hypothesized
mean. -/
theorem claim10_normal_branch_capped_witness :
    (evaluateCore (fun _ _ => 0) (fun _ => 0) ⟨10, 5, 1⟩
        ⟨5, 1 / 20, Tail.TwoSided, Distribution.Normal⟩).pValue ≤
      2 / Real.sqrt (2 * Real.pi) ∧
    (evaluateCore (fun _ _ => 0) (fun _ => 0) ⟨10, 5, 1⟩
        ⟨5, 1 / 20, Tail.TwoSided, Distribution.Normal⟩).pValue < 4 / 5 ∧
    ((⟨10, 5, 1⟩ : SampleSummary).mean = 5 →
      (evaluateCore (fun _ _ => 0) (fun _ => 0) ⟨10, 5, 1⟩
          ⟨5, 1 / 20, Tail.TwoSided, Distribution.Normal⟩).pValue =
        2 / Real.sqrt (2 * Real.pi) ∧
      (evaluateCore (fun _ _ => 0) (fun _ => 0) ⟨10, 5, 1⟩
          ⟨5, 1 / 20, Tail.TwoSided, Distribution.Normal⟩).pValue ≠ 1) :=
  claim10_normal_branch_capped (fun _ _ => 0) (fun _ => 0) ⟨10, 5, 1⟩ 5 (1 / 20)

/-- Claim C1 failing input: on a valid Normal two-sided input with statistic 0
(the notebook's sample size and stddev, mean set equal to the hypothesized
mean 98.6), the code's p-value is `2 * normalPdf 0 = 2/sqrt(2*pi) < 1`,
whereas `2 * survivalFunction(|0|) = 1` for any distribution whose survival
function is `1/2` at 0 (as the normal is); the Normal branch therefore does
not return `2 * survivalFunction(|statistic|)`. -/
theorem claim1_normal_density_divergence :
    validInput ⟨65, 98.6, 0.6987557623265904⟩
      ⟨98.6, 0.05, Tail.TwoSided, Distribution.Normal⟩ ∧
    (evaluateCore (fun _ => tSf2) (fun _ => 0) ⟨65, 98.6, 0.6987557623265904⟩
        ⟨98.6, 0.05, Tail.TwoSided, Distribution.Normal⟩).pValue =
      2 / Real.sqrt (2 * Real.pi) ∧
    (evaluateCore (fun _ => tSf2) (fun _ => 0) ⟨65, 98.6, 0.6987557623265904⟩
        ⟨98.6, 0.05, Tail.TwoSided, Distribution.Normal⟩).pValue < 1 := by
  have hstat : statistic ⟨65, 98.6, 0.6987557623265904⟩
      ⟨98.6, 0.05, Tail.TwoSided, Distribution.Normal⟩ = 0 := by
    rw [statistic_eq]
    norm_num
  have hform : (evaluateCore (fun _ => tSf2) (fun _ => 0) ⟨65, 98.6, 0.6987557623265904⟩
      ⟨98.6, 0.05, Tail.TwoSided, Distribution.Normal⟩).pValue =
      2 * normalPdf |statistic ⟨65, 98.6, 0.6987557623265904⟩
        ⟨98.6, 0.05, Tail.TwoSided, Distribution.Normal⟩| := rfl
  have heq : (evaluateCore (fun _ => tSf2) (fun _ => 0) ⟨65, 98.6, 0.6987557623265904⟩
      ⟨98.6, 0.05, Tail.TwoSided, Distribution.Normal⟩).pValue =
      2 / Real.sqrt (2 * Real.pi) := by
    rw [hform, hstat, abs_zero, normalPdf_zero, mul_one_div]
  refine ⟨⟨by norm_num, by norm_num, by norm_num, by norm_num⟩, heq, ?_⟩
  rw [heq]
  have h1 := two_normalPdf_zero_lt
  have h2 : 2 * normalPdf 0 = 2 / Real.sqrt (2 * Real.pi) := by
    rw [normalPdf_zero, mul_one_div]
  linarith

/-- Claim C4 counterexample: with degrees of freedom `df = n - 1 = 2` (whose
Student-t survival function has the closed form `tSf2`) and statistic `3/5`,
the two-sided StudentT p-value `2 * tSf2 (3/5) ≈ 0.609` is strictly
*smaller* than the Normal-branch p-value `2 * normalPdf (3/5) ≈ 0.666`, so
the Normal p-value is not strictly smaller for every statistic and df. -/
theorem claim4_counterexample :
    validInput ⟨3, 3 / 5, Real.sqrt 3⟩ ⟨0, 1 / 20, Tail.TwoSided, Distribution.StudentT⟩ ∧
    (evaluateCore (fun _ => tSf2) (fun _ => 0) ⟨3, 3 / 5, Real.sqrt 3⟩
        ⟨0, 1 / 20, Tail.TwoSided, Distribution.StudentT⟩).pValue <
      (evaluateCore (fun _ => tSf2) (fun _ => 0) ⟨3, 3 / 5, Real.sqrt 3⟩
        ⟨0, 1 / 20, Tail.TwoSided, Distribution.Normal⟩).pValue := by
  have h3pos : (0 : ℝ) < Real.sqrt 3 := Real.sqrt_pos.mpr (by norm_num)
  have hstatT : statistic ⟨3, 3 / 5, Real.sqrt 3⟩
      ⟨0, 1 / 20, Tail.TwoSided, Distribution.StudentT⟩ = 3 / 5 := by
    show ((3 : ℝ) / 5 - 0) / (Real.sqrt 3 / Real.sqrt ((3 : ℕ) : ℝ)) = 3 / 5
    norm_num [div_self (ne_of_gt h3pos)]
  have hstatN : statistic ⟨3, 3 / 5, Real.sqrt 3⟩
      ⟨0, 1 / 20, Tail.TwoSided, Distribution.Normal⟩ = 3 / 5 := by
    show ((3 : ℝ) / 5 - 0) / (Real.sqrt 3 / Real.sqrt ((3 : ℕ) : ℝ)) = 3 / 5
    norm_num [div_self (ne_of_gt h3pos)]
  have habs : |(3 : ℝ) / 5| = 3 / 5 := abs_of_pos (by norm_num)
  have hpT : (evaluateCore (fun _ => tSf2) (fun _ => 0) ⟨3, 3 / 5, Real.sqrt 3⟩
      ⟨0, 1 / 20, Tail.TwoSided, Distribution.StudentT⟩).pValue = 2 * tSf2 (3 / 5) := by
    show 2 * tSf2 |statistic ⟨3, 3 / 5, Real.sqrt 3⟩
      ⟨0, 1 / 20, Tail.TwoSided, Distribution.StudentT⟩| = 2 * tSf2 (3 / 5)
    rw [hstatT, habs]
  have hpN : (evaluateCore (fun _ => tSf2) (fun _ => 0) ⟨3, 3 / 5, Real.sqrt 3⟩
      ⟨0, 1 / 20, Tail.TwoSided, Distribution.Normal⟩).pValue = 2 * normalPdf (3 / 5) := by
    show 2 * normalPdf |statistic ⟨3, 3 / 5, Real.sqrt 3⟩
      ⟨0, 1 / 20, Tail.TwoSided, Distribution.Normal⟩| = 2 * normalPdf (3 / 5)
    rw [hstatN, habs]
  have hsq : Real.sqrt (59 / 25) ≤ 1.53624 :=
    sqrt_le_of_sq_le _ _ (by norm_num) (by norm_num)
  have hsqpos : (0 : ℝ) < Real.sqrt (59 / 25) := Real.sqrt_pos.mpr (by norm_num)
  have hexp : (41 : ℝ) / 50 ≤ Real.exp (-(9 / 50)) := by
    have := Real.add_one_le_exp (-(9 / 50) : ℝ)
    linarith
  have hN : (41 : ℝ) / 50 / 2.5067 ≤ normalPdf (3 / 5) := by
    unfold normalPdf
    have hexparg : -(((3 : ℝ) / 5) ^ 2) / 2 = -(9 / 50) := by norm_num
    rw [hexparg]
    exact div_le_div₀ (Real.exp_pos _).le hexp sqrt_two_pi_pos sqrt_two_pi_le
  have hT : 2 * tSf2 (3 / 5) ≤ 2 * (1 / 2 - (3 / 5) / (2 * 1.53624)) := by
    unfold tSf2
    have harg : Real.sqrt (((3 : ℝ) / 5) ^ 2 + 2) = Real.sqrt (59 / 25) := by norm_num
    rw [harg]
    have hmono : (3 : ℝ) / 5 / (2 * 1.53624) ≤ (3 : ℝ) / 5 / (2 * Real.sqrt (59 / 25)) :=
      div_le_div_of_nonneg_left (by norm_num) (by positivity) (by linarith)
    linarith
  have hnum : 2 * ((1 : ℝ) / 2 - (3 / 5) / (2 * 1.53624)) < 2 * ((41 : ℝ) / 50 / 2.5067) := by
    norm_num
  refine ⟨⟨by norm_num, Real.sqrt_nonneg 3, by norm_num, by norm_num⟩, ?_⟩
  rw [hpT, hpN]
  linarith

/-- Claim C4 amended: for tail `TwoSided` and statistic 0 (mean equal to the
hypothesized mean), the density-based Normal p-value `2/sqrt(2*pi)` is
strictly smaller than the StudentT p-value 1 for every df (the external t
survival function takes value `1/2` at 0); the universal strict inequality
over all statistics and df fails. -/
theorem claim4_amended_zero_statistic (tsf : ℕ → ℝ → ℝ) (nsf : ℝ → ℝ)
    (sample : SampleSummary) (mu0 alpha : ℝ)
    (hm : sample.mean = mu0) (htsf : tsf (sample.n - 1) 0 = 1 / 2) :
    (evaluateCore tsf nsf sample ⟨mu0, alpha, Tail.TwoSided, Distribution.Normal⟩).pValue <
      (evaluateCore tsf nsf sample ⟨mu0, alpha, Tail.TwoSided, Distribution.StudentT⟩).pValue := by
  have hstatN : statistic sample ⟨mu0, alpha, Tail.TwoSided, Distribution.Normal⟩ = 0 := by
    rw [statistic_eq, hm]
    simp
  have hstatT : statistic sample ⟨mu0, alpha, Tail.TwoSided, Distribution.StudentT⟩ = 0 := by
    rw [statistic_eq, hm]
    simp
  have hpN : (evaluateCore tsf nsf sample
      ⟨mu0, alpha, Tail.TwoSided, Distribution.Normal⟩).pValue = 2 * normalPdf 0 := by
    show 2 * normalPdf |statistic sample ⟨mu0, alpha, Tail.TwoSided, Distribution.Normal⟩| = _
    rw [hstatN, abs_zero]
  have hpT : (evaluateCore tsf nsf sample
      ⟨mu0, alpha, Tail.TwoSided, Distribution.StudentT⟩).pValue = 1 := by
    show 2 * tsf (sample.n - 1)
      |statistic sample ⟨mu0, alpha, Tail.TwoSided, Distribution.StudentT⟩| = 1
    rw [hstatT, abs_zero, htsf]
    norm_num
  rw [hpN, hpT]
  have := two_normalPdf_zero_lt
  linarith

/-- Witness for the amended C4 at a concrete input. -/
theorem claim4_amended_zero_statistic_witness :
    (evaluateCore (fun _ _ => 1 / 2) (fun _ => 0) ⟨10, 5, 1⟩
        ⟨5, 1 / 20, Tail.TwoSided, Distribution.Normal⟩).pValue <
      (evaluateCore (fun _ _ => 1 / 2) (fun _ => 0) ⟨10, 5, 1⟩
        ⟨5, 1 / 20, Tail.TwoSided, Distribution.StudentT⟩).pValue :=
  claim4_amended_zero_statistic (fun _ _ => 1 / 2) (fun _ => 0) ⟨10, 5, 1⟩ 5 (1 / 20)
    rfl rfl

lemma bodySample_statistic_bounds (spec : TestSpec)
    (hmu : spec.hypothesizedMean = 98.6) :
    -5.71575746 ≤ statistic bodySample spec ∧
      statistic bodySample spec ≤ -5.71575744 := by
  have heq : statistic bodySample spec =
      ((98.10461538461539 : ℝ) - 98.6) * Real.sqrt 65 / 0.6987557623265904 := by
    rw [statistic_eq, hmu]
    show ((98.10461538461539 : ℝ) - 98.6) /
      ((0.6987557623265904 : ℝ) / Real.sqrt ((65 : ℕ) : ℝ)) = _
    rw [div_div_eq_mul_div]
    norm_num
  have h65lo : (8.06225774 : ℝ) ≤ Real.sqrt 65 :=
    le_sqrt_of_sq_le _ _ (by norm_num) (by norm_num)
  have h65hi : Real.sqrt 65 ≤ 8.06225775 :=
    sqrt_le_of_sq_le _ _ (by norm_num) (by norm_num)
  constructor
  · rw [heq, le_div_iff₀ (by norm_num : (0 : ℝ) < 0.6987557623265904)]
    nlinarith [h65hi]
  · rw [heq, div_le_iff₀ (by norm_num : (0 : ℝ) < 0.6987557623265904)]
    nlinarith [h65lo]

/-- Claim C5: on the notebook's two-sided t-test scenario
(`n=65, mean=98.10461538461539, stddev=0.6987557623265904, mu0=98.6,
alpha=0.05, StudentT, TwoSided`), `evaluate` returns a statistic within
`1e-6` of `-5.715757`, a p-value of `2 * tsf 64 |statistic|` lying in
`[3.0838e-7, 3.0840e-7]` (so ~ 3.08384e-7), and `reject = true`; the
hypothesis records the value the external library reports for the Student-t
survival function at the statistic (`stats.t.sf ≈ 1.54192e-7`). -/
theorem claim5_two_sided_t_scenario (tsf : ℕ → ℝ → ℝ) (nsf : ℝ → ℝ)
    (htlo : 1.5419e-7 ≤ tsf 64
      |statistic bodySample ⟨98.6, 0.05, Tail.TwoSided, Distribution.StudentT⟩|)
    (hthi : tsf 64
      |statistic bodySample ⟨98.6, 0.05, Tail.TwoSided, Distribution.StudentT⟩| ≤
        1.5420e-7) :
    ∃ r : TestResult,
      evaluate tsf nsf bodySample ⟨98.6, 0.05, Tail.TwoSided, Distribution.StudentT⟩ =
        Except.ok r ∧
      |r.statistic - (-5.715757)| < 1e-6 ∧
      3.0838e-7 ≤ r.pValue ∧ r.pValue ≤ 3.0840e-7 ∧
      r.reject = true := by
  have hvalid : validInput bodySample ⟨98.6, 0.05, Tail.TwoSided, Distribution.StudentT⟩ := by
    refine ⟨?_, ?_, ?_, ?_⟩ <;> norm_num [bodySample]
  obtain ⟨hlo, hhi⟩ := bodySample_statistic_bounds
    ⟨98.6, 0.05, Tail.TwoSided, Distribution.StudentT⟩ rfl
  have hpv : pValue tsf nsf bodySample ⟨98.6, 0.05, Tail.TwoSided, Distribution.StudentT⟩ =
      2 * tsf 64
        |statistic bodySample ⟨98.6, 0.05, Tail.TwoSided, Distribution.StudentT⟩| := rfl
  refine ⟨_, evaluate_eq_ok _ _ _ _ hvalid, ?_, ?_, ?_, ?_⟩
  · rw [evaluateCore_statistic, abs_lt]
    constructor <;> linarith
  · rw [evaluateCore_pValue, hpv]
    linarith
  · rw [evaluateCore_pValue, hpv]
    linarith
  · apply (evaluateCore_reject_iff _ _ _ _).mpr
    rw [hpv]
    show 2 * tsf 64 _ ≤ (0.05 : ℝ)
    linarith

/-- Witness for C5: the external survival function instantiated with the
library-reported constant value. -/
theorem claim5_two_sided_t_scenario_witness :
    ∃ r : TestResult,
      evaluate (fun _ _ => 1.54192e-7) (fun _ => 0) bodySample
        ⟨98.6, 0.05, Tail.TwoSided, Distribution.StudentT⟩ = Except.ok r ∧
      |r.statistic - (-5.715757)| < 1e-6 ∧
      3.0838e-7 ≤ r.pValue ∧ r.pValue ≤ 3.0840e-7 ∧
      r.reject = true :=
  claim5_two_sided_t_scenario (fun _ _ => 1.54192e-7) (fun _ => 0)
    (by norm_num) (by norm_num)

/-- Claim C6: for every valid input with `tail = RightTailed`, `evaluate`
returns `pValue = survivalFunction(statistic)` under the selected reference
distribution — `tsf (n-1) statistic` on the StudentT path and
`nsf statistic` on the Normal path (first two conjuncts); and on the
notebook's concrete sample with `hypothesizedMean = 98.6, alpha = 0.05,
StudentT`, the statistic is within `1e-6` of `-5.715757`, the p-value is
within `5e-8` of `0.9999998`, and `reject = false` (third conjunct, with
the external library's value `stats.t.sf(statistic, 64) ≈ 0.99999984580`
recorded as a hypothesis). -/
theorem claim6_right_tailed_sf :
    (∀ (tsf : ℕ → ℝ → ℝ) (nsf : ℝ → ℝ) (sample : SampleSummary) (mu0 alpha : ℝ),
      validInput sample ⟨mu0, alpha, Tail.RightTailed, Distribution.StudentT⟩ →
      ∃ r : TestResult,
        evaluate tsf nsf sample ⟨mu0, alpha, Tail.RightTailed, Distribution.StudentT⟩ =
          Except.ok r ∧
        r.pValue = tsf (sample.n - 1)
          (statistic sample ⟨mu0, alpha, Tail.RightTailed, Distribution.StudentT⟩)) ∧
    (∀ (tsf : ℕ → ℝ → ℝ) (nsf : ℝ → ℝ) (sample : SampleSummary) (mu0 alpha : ℝ),
      validInput sample ⟨mu0, alpha, Tail.RightTailed, Distribution.Normal⟩ →
      ∃ r : TestResult,
        evaluate tsf nsf sample ⟨mu0, alpha, Tail.RightTailed, Distribution.Normal⟩ =
          Except.ok r ∧
        r.pValue = nsf
          (statistic sample ⟨mu0, alpha, Tail.RightTailed, Distribution.Normal⟩)) ∧
    (∀ (tsf : ℕ → ℝ → ℝ) (nsf : ℝ → ℝ),
      0.99999984 ≤ tsf 64
        (statistic bodySample ⟨98.6, 0.05, Tail.RightTailed, Distribution.StudentT⟩) →
      tsf 64
        (statistic bodySample ⟨98.6, 0.05, Tail.RightTailed, Distribution.StudentT⟩) ≤
          0.99999985 →
      ∃ r : TestResult,
        evaluate tsf nsf bodySample ⟨98.6, 0.05, Tail.RightTailed, Distribution.StudentT⟩ =
          Except.ok r ∧
        |r.statistic - (-5.715757)| < 1e-6 ∧
        |r.pValue - 0.9999998| ≤ 5e-8 ∧
        r.reject = false) := by
  refine ⟨?_, ?_, ?_⟩
  · intro tsf nsf sample mu0 alpha hv
    exact ⟨_, evaluate_eq_ok _ _ _ _ hv, rfl⟩
  · intro tsf nsf sample mu0 alpha hv
    exact ⟨_, evaluate_eq_ok _ _ _ _ hv, rfl⟩
  · intro tsf nsf htlo hthi
    have hvalid : validInput bodySample
        ⟨98.6, 0.05, Tail.RightTailed, Distribution.StudentT⟩ := by
      refine ⟨?_, ?_, ?_, ?_⟩ <;> norm_num [bodySample]
    obtain ⟨hlo, hhi⟩ := bodySample_statistic_bounds
      ⟨98.6, 0.05, Tail.RightTailed, Distribution.StudentT⟩ rfl
    have hpv : pValue tsf nsf bodySample
        ⟨98.6, 0.05, Tail.RightTailed, Distribution.StudentT⟩ =
        tsf 64
          (statistic bodySample ⟨98.6, 0.05, Tail.RightTailed, Distribution.StudentT⟩) := rfl
    refine ⟨_, evaluate_eq_ok _ _ _ _ hvalid, ?_, ?_, ?_⟩
    · rw [evaluateCore_statistic, abs_lt]
      constructor <;> linarith
    · rw [evaluateCore_pValue, hpv, abs_le]
      constructor <;> linarith
    · rw [← Bool.not_eq_true, evaluateCore_reject_iff, hpv]
      intro hcon
      have : tsf 64
          (statistic bodySample ⟨98.6, 0.05, Tail.RightTailed, Distribution.StudentT⟩) ≤
            (0.05 : ℝ) := hcon
      linarith

/-- Witness for C6: the Normal right-tailed conjunct applied at a concrete
valid input with a constant normal survival collaborator, and the concrete
StudentT scenario applied with the library-reported survival value. -/
theorem claim6_right_tailed_sf_witness :
    (∃ r : TestResult,
      evaluate (fun _ _ => (1 : ℝ) / 4) (fun _ => (3 : ℝ) / 10) ⟨10, 5, 1⟩
        ⟨5, 1 / 20, Tail.RightTailed, Distribution.Normal⟩ = Except.ok r ∧
      r.pValue = (fun _ => (3 : ℝ) / 10)
        (statistic ⟨10, 5, 1⟩ ⟨5, 1 / 20, Tail.RightTailed, Distribution.Normal⟩)) ∧
    (∃ r : TestResult,
      evaluate (fun _ _ => 0.999999845) (fun _ => 0) bodySample
        ⟨98.6, 0.05, Tail.RightTailed, Distribution.StudentT⟩ = Except.ok r ∧
      |r.statistic - (-5.715757)| < 1e-6 ∧
      |r.pValue - 0.9999998| ≤ 5e-8 ∧
      r.reject = false) :=
  ⟨claim6_right_tailed_sf.2.1 (fun _ _ => (1 : ℝ) / 4) (fun _ => (3 : ℝ) / 10)
      ⟨10, 5, 1⟩ 5 (1 / 20) ⟨by norm_num, by norm_num, by norm_num, by norm_num⟩,
   claim6_right_tailed_sf.2.2 (fun _ _ => 0.999999845) (fun _ => 0)
      (by norm_num) (by norm_num)⟩

end BasicStatistics
